import Mathlib

/-!
Verification of the Veggie Clash code base (a TypeScript browser arcade
shooter) against its natural-language specification.  The definitions below
are a shallow embedding of the relevant source modules:

* `src/game/state/GameState.ts`        (shared mutable game state, persistence)
* `src/game/entities/Player.ts`        (power-ups, weapons, combat stats)
* `src/game/entities/Enemy.ts`         (enemy AI state machine)
* `src/game/systems/MissionManager.ts` (mission progress, the Settings class)
* `src/game/scenes/GameOverScene.ts`   (high-score persistence)

Modelling conventions: JavaScript numbers that only ever hold integral game
quantities (scores, HP, ammo, timestamps) are embedded as `Int`; quantities
that carry fractional values (multipliers, speeds, timers in ms) as `Rat`.
JavaScript `Map`s and plain objects used as string maps are embedded as
insertion-ordered association lists (`Map.set`/property writes replace the
value of an existing key in place and append new keys at the end, which the
`aset` helper mirrors).  `localStorage` is an association list from key
strings to stored values.  JSON texts are embedded at the level of the
parsed JSON tree (`JValue`); `JSON.stringify`/`JSON.parse` between a tree
and its text are mutually inverse on such trees, so the text layer is not
re-modelled, except for `parseInt`, whose character-level semantics matter
to the high-score logic and which is modelled on actual characters.
-/

namespace VeggieClash

/-! ### Generic insertion-ordered association maps -/

/-- Lookup of the value stored at `key` (first occurrence wins, as for a
JavaScript `Map` or object, whose keys are unique). -/
def alookup {κ α : Type} [DecidableEq κ] : List (κ × α) → κ → Option α
  | [], _ => none
  | (k, v) :: rest, key => if k = key then some v else alookup rest key

/-- Write `key ↦ v`: replace the value of an existing key in place, append a
new key at the end (the behaviour of `Map.set`, of property assignment on a
plain object, and of `localStorage.setItem`). -/
def aset {κ α : Type} [DecidableEq κ] : List (κ × α) → κ → α → List (κ × α)
  | [], key, v => [(key, v)]
  | (k, w) :: rest, key, v =>
    if k = key then (key, v) :: rest else (k, w) :: aset rest key v

/-- Delete `key` (the behaviour of `delete obj[key]` / `Map.delete` on maps
with unique keys). -/
def aerase {κ α : Type} [DecidableEq κ] : List (κ × α) → κ → List (κ × α)
  | [], _ => []
  | (k, w) :: rest, key => if k = key then rest else (k, w) :: aerase rest key

/-! ### JSON trees -/

/-- A parsed JSON document.  Numbers are embedded as `Int` (all JSON numbers
stored by this program are integral game quantities). -/
inductive JValue : Type where
  | null : JValue
  | bool (b : Bool) : JValue
  | num (n : Int) : JValue
  | str (s : String) : JValue
  | arr (elems : List JValue) : JValue
  | obj (fields : List (String × JValue)) : JValue

/-- Field access on a JSON object (first occurrence wins). -/
def JValue.get : JValue → String → Option JValue
  | .obj fields, key => alookup fields key
  | _, _ => none

def JValue.asNum : JValue → Option Int
  | .num n => some n
  | _ => none

def JValue.asStr : JValue → Option String
  | .str s => some s
  | _ => none

def JValue.asObj : JValue → Option (List (String × JValue))
  | .obj fields => some fields
  | _ => none

/-! ### GameState (`src/game/state/GameState.ts`) -/

/-- `EnemyPosition` interface. -/
structure EnemyPosition where
  x : Int
  y : Int
  id : String

/-- `WeaponData` interface. -/
structure WeaponData where
  name : String
  ammo : Int
  hasInfiniteAmmo : Bool

/-- `GameStateData` interface.  `inventory` and `flags` are
`Record<string, any>`, embedded as string-keyed maps of JSON values. -/
structure GameStateData where
  score : Int
  level : Int
  playerHP : Int
  playerMaxHP : Int
  inventory : List (String × JValue)
  flags : List (String × JValue)
  lastMode : String
  playerX : Int
  playerY : Int
  enemies : List EnemyPosition
  currentWeapon : Option WeaponData

/-- A `Partial<GameStateData>` as accepted by `GameState.setData`: every
field optional. -/
structure GameStatePatch where
  score : Option Int := none
  level : Option Int := none
  playerHP : Option Int := none
  playerMaxHP : Option Int := none
  inventory : Option (List (String × JValue)) := none
  flags : Option (List (String × JValue)) := none
  lastMode : Option String := none
  playerX : Option Int := none
  playerY : Option Int := none
  enemies : Option (List EnemyPosition) := none
  currentWeapon : Option (Option WeaponData) := none

namespace GameState

/-- `GameState.reset()`: the freshly initialised record (the constructor
calls `reset`, so this is also the state at construction). -/
def reset : GameStateData where
  score := 0
  level := 1
  playerHP := 100
  playerMaxHP := 100
  inventory := []
  flags := []
  lastMode := "campaign"
  playerX := 0
  playerY := 0
  enemies := []
  currentWeapon := some { name := "Pea Shooter", ammo := -1, hasInfiniteAmmo := true }

/-- `setData(data: Partial<GameStateData>)`: `this.data = { ...this.data, ...data }`;
present fields of the patch win, absent ones keep the current value. -/
def setData (d : GameStateData) (p : GameStatePatch) : GameStateData where
  score := p.score.getD d.score
  level := p.level.getD d.level
  playerHP := p.playerHP.getD d.playerHP
  playerMaxHP := p.playerMaxHP.getD d.playerMaxHP
  inventory := p.inventory.getD d.inventory
  flags := p.flags.getD d.flags
  lastMode := p.lastMode.getD d.lastMode
  playerX := p.playerX.getD d.playerX
  playerY := p.playerY.getD d.playerY
  enemies := p.enemies.getD d.enemies
  currentWeapon := p.currentWeapon.getD d.currentWeapon

/-- `updateScore(points)`: `this.data.score += points`. -/
def updateScore (d : GameStateData) (points : Int) : GameStateData :=
  { d with score := d.score + points }

/-- `setScore(score)`. -/
def setScore (d : GameStateData) (s : Int) : GameStateData :=
  { d with score := s }

/-- `setLevel(level)`. -/
def setLevel (d : GameStateData) (l : Int) : GameStateData :=
  { d with level := l }

/-- `setPlayerHP(hp)`: `this.data.playerHP = Math.max(0, Math.min(hp, this.data.playerMaxHP))`. -/
def setPlayerHP (d : GameStateData) (hp : Int) : GameStateData :=
  { d with playerHP := max 0 (min hp d.playerMaxHP) }

/-- `setPlayerMaxHP(maxHP)`: sets the maximum and clamps the current HP down
to it. -/
def setPlayerMaxHP (d : GameStateData) (maxHP : Int) : GameStateData :=
  { d with playerMaxHP := maxHP, playerHP := min d.playerHP maxHP }

/-- `setPlayerPosition(x, y)`. -/
def setPlayerPosition (d : GameStateData) (x y : Int) : GameStateData :=
  { d with playerX := x, playerY := y }

/-- `setEnemies(enemies)`. -/
def setEnemies (d : GameStateData) (es : List EnemyPosition) : GameStateData :=
  { d with enemies := es }

/-- `setCurrentWeapon(weapon)`. -/
def setCurrentWeapon (d : GameStateData) (w : Option WeaponData) : GameStateData :=
  { d with currentWeapon := w }

/-- `addItem(key, value)`: `this.data.inventory[key] = value`. -/
def addItem (d : GameStateData) (key : String) (v : JValue) : GameStateData :=
  { d with inventory := aset d.inventory key v }

/-- `removeItem(key)`: `delete this.data.inventory[key]`. -/
def removeItem (d : GameStateData) (key : String) : GameStateData :=
  { d with inventory := aerase d.inventory key }

/-- `setFlag(key, value)`. -/
def setFlag (d : GameStateData) (key : String) (b : Bool) : GameStateData :=
  { d with flags := aset d.flags key (JValue.bool b) }

/-- The `lastMode` setter. -/
def setLastMode (d : GameStateData) (mode : String) : GameStateData :=
  { d with lastMode := mode }

end GameState

/-- The mutating operations of the `GameState` class (the persistence pair
`saveToStorage`/`loadFromStorage` is modelled separately below). -/
inductive GSOp : Type where
  | reset : GSOp
  | setData (p : GameStatePatch) : GSOp
  | setPlayerHP (hp : Int) : GSOp
  | setPlayerMaxHP (maxHP : Int) : GSOp
  | updateScore (points : Int) : GSOp
  | setScore (s : Int) : GSOp
  | setLevel (l : Int) : GSOp
  | setPlayerPosition (x y : Int) : GSOp
  | setEnemies (es : List EnemyPosition) : GSOp
  | setCurrentWeapon (w : Option WeaponData) : GSOp
  | addItem (key : String) (v : JValue) : GSOp
  | removeItem (key : String) : GSOp
  | setFlag (key : String) (b : Bool) : GSOp
  | setLastMode (mode : String) : GSOp

def GSOp.apply (d : GameStateData) : GSOp → GameStateData
  | .reset => GameState.reset
  | .setData p => GameState.setData d p
  | .setPlayerHP hp => GameState.setPlayerHP d hp
  | .setPlayerMaxHP m => GameState.setPlayerMaxHP d m
  | .updateScore pts => GameState.updateScore d pts
  | .setScore s => GameState.setScore d s
  | .setLevel l => GameState.setLevel d l
  | .setPlayerPosition x y => GameState.setPlayerPosition d x y
  | .setEnemies es => GameState.setEnemies d es
  | .setCurrentWeapon w => GameState.setCurrentWeapon d w
  | .addItem k v => GameState.addItem d k v
  | .removeItem k => GameState.removeItem d k
  | .setFlag k b => GameState.setFlag d k b
  | .setLastMode m => GameState.setLastMode d m

/-- Run a sequence of `GameState` operations left to right. -/
def runGSOps (ops : List GSOp) (d : GameStateData) : GameStateData :=
  ops.foldl GSOp.apply d

/-- The clamp invariant the specification ascribes to the shared state:
`0 <= playerHP <= playerMaxHP`. -/
def hpInvariant (d : GameStateData) : Prop :=
  0 ≤ d.playerHP ∧ d.playerHP ≤ d.playerMaxHP

instance (d : GameStateData) : Decidable (hpInvariant d) := by
  unfold hpInvariant; infer_instance

/-- Operations that never break the clamp invariant.  `setData` copies the
patch fields verbatim without clamping, and `setPlayerMaxHP` with a negative
argument drags `playerHP` below zero, so these are excluded. -/
def GSOp.preservesClamp : GSOp → Prop
  | .setData _ => False
  | .setPlayerMaxHP m => 0 ≤ m
  | _ => True

instance : DecidablePred GSOp.preservesClamp := fun op => by
  cases op <;> unfold GSOp.preservesClamp <;> infer_instance

/-! ### GameState persistence (`saveToStorage` / `loadFromStorage`)

`localStorage` as seen by `GameState` is a map from keys to the JSON trees
of the stored texts (`saveToStorage` stores `JSON.stringify(this.data)`,
`loadFromStorage` applies `JSON.parse` to what it reads; the model keeps the
parsed tree). -/

/-- Key-to-JSON-blob view of `localStorage`. -/
abbrev JStorage : Type := List (String × JValue)

/-- Encoding of an `EnemyPosition` as produced by `JSON.stringify` (fields
in declaration order). -/
def encodeEnemyPos (e : EnemyPosition) : JValue :=
  .obj [("x", .num e.x), ("y", .num e.y), ("id", .str e.id)]

/-- Encoding of a `WeaponData | null` value. -/
def encodeWeaponData : Option WeaponData → JValue
  | none => .null
  | some w => .obj [("name", .str w.name), ("ammo", .num w.ammo),
                    ("hasInfiniteAmmo", .bool w.hasInfiniteAmmo)]

/-- `JSON.stringify(this.data)` as a JSON tree: one object field per
`GameStateData` field, in declaration order. -/
def encodeGameState (d : GameStateData) : JValue :=
  .obj [("score", .num d.score),
        ("level", .num d.level),
        ("playerHP", .num d.playerHP),
        ("playerMaxHP", .num d.playerMaxHP),
        ("inventory", .obj d.inventory),
        ("flags", .obj d.flags),
        ("lastMode", .str d.lastMode),
        ("playerX", .num d.playerX),
        ("playerY", .num d.playerY),
        ("enemies", .arr (d.enemies.map encodeEnemyPos)),
        ("currentWeapon", encodeWeaponData d.currentWeapon)]

def decodeEnemyPos (j : JValue) : Option EnemyPosition := do
  let x ← (j.get "x").bind JValue.asNum
  let y ← (j.get "y").bind JValue.asNum
  let id ← (j.get "id").bind JValue.asStr
  pure { x := x, y := y, id := id }

def decodeEnemyList : List JValue → Option (List EnemyPosition)
  | [] => some []
  | j :: rest => do
    let e ← decodeEnemyPos j
    let es ← decodeEnemyList rest
    pure (e :: es)

def decodeWeaponData : JValue → Option (Option WeaponData)
  | .null => some none
  | j => do
    let name ← (j.get "name").bind JValue.asStr
    let ammo ← (j.get "ammo").bind JValue.asNum
    let inf ← match j.get "hasInfiniteAmmo" with
              | some (.bool b) => some b
              | _ => none
    pure (some { name := name, ammo := ammo, hasInfiniteAmmo := inf })

/-- `this.data = { ...this.data, ...JSON.parse(saved) }`: every field whose
key is present in the parsed object (with a value of the field's shape)
replaces the current one; fields absent from the blob keep their current
value.  The model state only carries well-shaped values, so an ill-shaped
field of a foreign blob keeps the current value; blobs written by
`saveToStorage` always have every field present and well-shaped. -/
def mergeGameState (d : GameStateData) (j : JValue) : GameStateData where
  score := ((j.get "score").bind JValue.asNum).getD d.score
  level := ((j.get "level").bind JValue.asNum).getD d.level
  playerHP := ((j.get "playerHP").bind JValue.asNum).getD d.playerHP
  playerMaxHP := ((j.get "playerMaxHP").bind JValue.asNum).getD d.playerMaxHP
  inventory := ((j.get "inventory").bind JValue.asObj).getD d.inventory
  flags := ((j.get "flags").bind JValue.asObj).getD d.flags
  lastMode := ((j.get "lastMode").bind JValue.asStr).getD d.lastMode
  playerX := ((j.get "playerX").bind JValue.asNum).getD d.playerX
  playerY := ((j.get "playerY").bind JValue.asNum).getD d.playerY
  enemies := ((j.get "enemies").bind fun v => match v with
              | .arr xs => decodeEnemyList xs
              | _ => none).getD d.enemies
  currentWeapon := ((j.get "currentWeapon").bind decodeWeaponData).getD d.currentWeapon

/-- `saveToStorage()`: `localStorage.setItem('vc_game_state_v1', JSON.stringify(this.data))`.
The model covers the success path (the `try`/`catch` only guards against
quota errors of the browser, which the embedding does not represent). -/
def saveToStorage (d : GameStateData) (st : JStorage) : JStorage :=
  aset st "vc_game_state_v1" (encodeGameState d)

/-- `loadFromStorage()`: reads `'vc_game_state_v1'`; when a blob is present
it is merged over the current data and the call returns `true`, otherwise
the data is unchanged and the call returns `false`. -/
def loadFromStorage (d : GameStateData) (st : JStorage) : Bool × GameStateData :=
  match alookup st "vc_game_state_v1" with
  | some j => (true, mergeGameState d j)
  | none => (false, d)

/-! ### Player (`src/game/entities/Player.ts`)

Only the combat-stat / power-up / weapon state of the `Player` sprite is
embedded; rendering, physics bodies, tweens and particle effects live in the
engine.  Multipliers, speeds and millisecond durations are rationals. -/

/-- The `PowerUpType` enumeration (`RANCH_DIP`, `OLIVE_OIL`, `FERTILIZER`,
`COMPOST_HEART`). -/
inductive PowerUpType : Type where
  | damageBoost : PowerUpType
  | speedBoost : PowerUpType
  | fireRateBoost : PowerUpType
  | instantHeal : PowerUpType
deriving DecidableEq, Repr

/-- The `PowerUpEffect` interface (the `timerBar` graphics handle is
engine-side and not part of the data model). -/
structure PowerUpEffect where
  multiplier : Rat
  duration : Rat
  remainingTime : Rat
deriving DecidableEq, Repr

/-- The weapon table entries (`projectileTexture` is an asset key with no
game-logic content). -/
structure Weapon where
  name : String
  damage : Int
  fireRate : Rat
  ammo : Int
deriving DecidableEq, Repr

/-- `Player.weapons`: the three-weapon table. -/
def weapons : List Weapon :=
  [{ name := "Pea Shooter", damage := 10, fireRate := 150, ammo := -1 },
   { name := "Corn Cannon", damage := 25, fireRate := 400, ammo := 30 },
   { name := "Beet Bazooka", damage := 50, fireRate := 800, ammo := 10 }]

/-- `this.weapons[i]`.  In every reachable state the index is in range
(proved with claim C9); out-of-range access, which would crash in
JavaScript, defaults to the first entry. -/
def weaponAt (i : Int) : Weapon :=
  weapons.getD i.toNat { name := "Pea Shooter", damage := 10, fireRate := 150, ammo := -1 }

/-- The combat-relevant fields of the `Player` class. -/
structure Player where
  health : Int
  maxHealth : Int
  currentWeapon : Int
  currentAmmo : Int
  maxAmmo : Int
  moveSpeed : Rat
  baseMoveSpeed : Rat
  baseDamageMultiplier : Rat
  baseFireRateMultiplier : Rat
  activePowerUps : List (PowerUpType × PowerUpEffect)
deriving DecidableEq, Repr

/-- The stats object emitted on the `playerStatsChanged` event at the end of
`recalculateStats` (the speed component is sent as the difference from the
base multiplier). -/
structure EmittedStats where
  damageMultiplier : Rat
  speedMultiplierDelta : Rat
  fireRateMultiplier : Rat
deriving DecidableEq, Repr

/-- `Player.recalculateStats()`: re-derives the three multipliers from the
active power-ups (starting from the base fields for damage and fire rate and
from `1.0` for speed), clamps them (damage ≤ 2.0, speed ≤ 1.5, fire rate
≤ 2.0), stores `baseMoveSpeed * speedMultiplier` into `moveSpeed`, and emits
the clamped multipliers on the HUD event.  The damage and fire-rate results
are only emitted; no field of the player stores them. -/
def recalculateStats (p : Player) : Player × EmittedStats :=
  let dm := p.activePowerUps.foldl
    (fun acc kv => if kv.1 = PowerUpType.damageBoost then acc * kv.2.multiplier else acc)
    p.baseDamageMultiplier
  let sm := p.activePowerUps.foldl
    (fun acc kv => if kv.1 = PowerUpType.speedBoost then acc * kv.2.multiplier else acc)
    (1 : Rat)
  let fm := p.activePowerUps.foldl
    (fun acc kv => if kv.1 = PowerUpType.fireRateBoost then acc * kv.2.multiplier else acc)
    p.baseFireRateMultiplier
  let dm := min dm 2
  let sm := min sm (3 / 2)
  let fm := min fm 2
  ({ p with moveSpeed := p.baseMoveSpeed * sm },
   { damageMultiplier := dm, speedMultiplierDelta := sm - 1, fireRateMultiplier := fm })

/-- `Player.applyPowerUp(powerUpType, multiplier, durationMs)`: an already
active type is refreshed in place (higher of the two multipliers, duration
and remaining time reset to the new duration); a new type is added to the
map.  Either way `recalculateStats` runs afterwards; the emitted stats of
that run are returned alongside the player. -/
def applyPowerUp (p : Player) (t : PowerUpType) (multiplier durationMs : Rat) :
    Player × EmittedStats :=
  match alookup p.activePowerUps t with
  | some e =>
    let refreshed : PowerUpEffect :=
      { multiplier := max e.multiplier multiplier,
        duration := durationMs, remainingTime := durationMs }
    recalculateStats { p with activePowerUps := aset p.activePowerUps t refreshed }
  | none =>
    let fresh : PowerUpEffect :=
      { multiplier := multiplier, duration := durationMs, remainingTime := durationMs }
    recalculateStats { p with activePowerUps := p.activePowerUps ++ [(t, fresh)] }

/-- `Player.removePowerUp(powerUpType)`: deletes the map entry. -/
def removePowerUp (p : Player) (t : PowerUpType) : Player :=
  { p with activePowerUps := aerase p.activePowerUps t }

/-- `Player.updatePowerUps(delta)`: decrement every remaining time, remove
the expired effects, and rerun `recalculateStats` when any was removed. -/
def updatePowerUps (p : Player) (delta : Rat) : Player :=
  let stepped := p.activePowerUps.map
    (fun kv => (kv.1, { kv.2 with remainingTime := kv.2.remainingTime - delta }))
  let kept := stepped.filter (fun kv => !(kv.2.remainingTime ≤ 0 : Bool))
  let p1 := { p with activePowerUps := kept }
  if kept.length = stepped.length then p1 else (recalculateStats p1).1

/-- `Player.updateWeaponStats()`: refill both ammo fields from the current
weapon's table entry. -/
def updateWeaponStats (p : Player) : Player :=
  let w := weaponAt p.currentWeapon
  { p with maxAmmo := w.ammo, currentAmmo := w.ammo }

/-- `Player.switchWeapon(direction)`:
`(this.currentWeapon + direction + this.weapons.length) % this.weapons.length`
(JavaScript `%` is the truncated remainder, `Int.tmod`), then
`updateWeaponStats`. -/
def switchWeapon (p : Player) (direction : Int) : Player :=
  updateWeaponStats { p with currentWeapon := (p.currentWeapon + direction + 3).tmod 3 }

/-- The damage of the projectile created by `Player.shoot()`:
`Math.floor(weapon.damage * this.baseDamageMultiplier)`. -/
def shootDamage (p : Player) : Int :=
  Int.floor ((weaponAt p.currentWeapon).damage * p.baseDamageMultiplier)

/-- The effective cooldown used by `Player.shoot()`:
`weapon.fireRate / this.baseFireRateMultiplier`. -/
def shootFireRate (p : Player) : Rat :=
  (weaponAt p.currentWeapon).fireRate / p.baseFireRateMultiplier

/-- The player as built by the constructor: full health, weapon 0, base
multipliers `1.0`, base speed `GAME_SETTINGS.PLAYER_SPEED = 200`, no active
power-ups, ammo filled by the initial `updateWeaponStats` call. -/
def initialPlayer : Player :=
  updateWeaponStats
    { health := 100, maxHealth := 100, currentWeapon := 0,
      currentAmmo := -1, maxAmmo := -1,
      moveSpeed := 200, baseMoveSpeed := 200,
      baseDamageMultiplier := 1, baseFireRateMultiplier := 1,
      activePowerUps := [] }

/-- Number of active effects of a given power-up type. -/
def countType (l : List (PowerUpType × PowerUpEffect)) (t : PowerUpType) : Nat :=
  (l.filter (fun kv => kv.1 = t)).length

/-! ### Enemy (`src/game/entities/Enemy.ts`)

The enemy's AI is a per-frame state machine over
`'idle' | 'seeking' | 'attacking' | 'stunned'` driven by `updateState` and
`takeDamage`.  The scene's player (the target `findTarget` acquires) enters
the model as the `player` argument of `update`; positions are rationals and
the range test compares squared distances, which on nonnegative ranges is
equivalent to the source's `Phaser.Math.Distance.Between(..) <= attackRange`. -/

inductive EnemyState : Type where
  | idle : EnemyState
  | seeking : EnemyState
  | attacking : EnemyState
  | stunned : EnemyState
deriving DecidableEq, Repr

inductive EnemyType : Type where
  | tomato : EnemyType
  | onion : EnemyType
  | pepper : EnemyType
  | broccoli : EnemyType
  | eggplant : EnemyType
deriving DecidableEq, Repr

/-- The per-type stat table of `Enemy.setupStats()`. -/
structure EnemyStats where
  health : Int
  speed : Rat
  damage : Int
  attackCooldown : Rat
  attackRange : Rat
deriving DecidableEq, Repr

def setupStats : EnemyType → EnemyStats
  | .tomato => { health := 20, speed := 80, damage := 8,
                 attackCooldown := 2000, attackRange := 200 }
  | .onion => { health := 15, speed := 120, damage := 12,
                attackCooldown := 1500, attackRange := 50 }
  | .pepper => { health := 12, speed := 60, damage := 15,
                 attackCooldown := 3000, attackRange := 300 }
  | .broccoli => { health := 40, speed := 40, damage := 20,
                   attackCooldown := 2500, attackRange := 80 }
  | .eggplant => { health := 200, speed := 30, damage := 25,
                   attackCooldown := 1000, attackRange := 250 }

/-- The AI-relevant fields of the `Enemy` sprite. -/
structure Enemy where
  enemyType : EnemyType
  health : Int
  maxHealth : Int
  x : Rat
  y : Rat
  target : Option (Rat × Rat)
  state : EnemyState
  stateTimer : Rat
deriving DecidableEq, Repr

/-- The `Enemy` constructor: stats from the per-type table, no target yet,
and — after the initial `'idle'` field value is overwritten at the end of
the constructor — the `'seeking'` state. -/
def mkEnemy (t : EnemyType) (x y : Rat) : Enemy :=
  let stats := setupStats t
  { enemyType := t, health := stats.health, maxHealth := stats.health,
    x := x, y := y, target := none, state := .seeking, stateTimer := 0 }

/-- `Enemy.isInRange()`: a target is tracked and its distance is at most the
per-type attack range (squared-distance form of the source's
`Distance.Between(..) <= this.attackRange`). -/
def isInRange (e : Enemy) : Bool :=
  match e.target with
  | none => false
  | some (tx, ty) =>
    (e.x - tx) ^ 2 + (e.y - ty) ^ 2 ≤ (setupStats e.enemyType).attackRange ^ 2

/-- `Enemy.findTarget()`: acquire the scene's player as target when one
exists, otherwise keep the current target. -/
def findTarget (e : Enemy) (player : Option (Rat × Rat)) : Enemy :=
  match player with
  | some pos => { e with target := some pos }
  | none => e

/-- `Enemy.updateState(delta)`: decrement the state timer, then branch on
the state: `stunned` returns to `seeking` once the timer is `<= 0`;
`seeking` acquires a target and becomes `attacking` when one is in range;
`attacking` falls back to `seeking` when no target is in range (otherwise it
stays and runs `attemptAttack`, which does not change the state).  The
source decrements `this.stateTimer` before the switch; since neither
`findTarget` nor `isInRange` reads the timer and no branch writes it again,
the decrement commutes with the branch and is applied together with it
here. -/
def updateState (e : Enemy) (delta : Rat) (player : Option (Rat × Rat)) : Enemy :=
  let timer := e.stateTimer - delta
  match e.state with
  | .stunned =>
    if timer ≤ 0 then { e with stateTimer := timer, state := .seeking }
    else { e with stateTimer := timer }
  | .seeking =>
    let e2 := findTarget e player
    if e2.target.isSome && isInRange e2 then { e2 with stateTimer := timer, state := .attacking }
    else { e2 with stateTimer := timer }
  | .attacking =>
    if e.target.isNone || !isInRange e then { e with stateTimer := timer, state := .seeking }
    else { e with stateTimer := timer }
  | .idle => { e with stateTimer := timer }

/-- `Enemy.takeDamage(amount)`: clamp health at zero, stun for 200 ms.
(The tint flash and knockback tween are engine-side visuals.) -/
def enemyTakeDamage (e : Enemy) (amount : Int) : Enemy :=
  { e with health := max 0 (e.health - amount), state := .stunned, stateTimer := 200 }

/-- The operations the game performs on a live enemy. -/
inductive EnemyOp : Type where
  | update (delta : Rat) (player : Option (Rat × Rat)) : EnemyOp
  | takeDamage (amount : Int) : EnemyOp

def EnemyOp.apply (e : Enemy) : EnemyOp → Enemy
  | .update delta player => updateState e delta player
  | .takeDamage amount => enemyTakeDamage e amount

def runEnemyOps (ops : List EnemyOp) (e : Enemy) : Enemy :=
  ops.foldl EnemyOp.apply e

/-- The states the specification's finite-state machine consists of. -/
def aiStates : List EnemyState := [.seeking, .attacking, .stunned]

/-! ### Settings (`src/game/systems/MissionManager.ts`, class `Settings`)

`GameSettings` is a flat record persisted as JSON under
`'veggie-clash-settings'`.  `loadSettings` reads the blob; the three cases
it distinguishes (no blob, `JSON.parse` throws, parse succeeds) appear as
the constructors of `SettingsBlob`, with a successful parse carrying the
fields the blob provides. -/

/-- The `'low' | 'medium' | 'high'` union used by the quality settings. -/
inductive Quality : Type where
  | low : Quality
  | medium : Quality
  | high : Quality
deriving DecidableEq, Repr

/-- The `GameSettings` interface (flat record of every setting). -/
structure GameSettings where
  masterVolume : Rat
  sfxVolume : Rat
  musicVolume : Rat
  audioEnabled : Bool
  particleQuality : Quality
  graphicsQuality : Quality
  screenShake : Bool
  enableVignette : Bool
  enableAmbientFog : Bool
  enableBloom : Bool
  enableCRTOvrelay : Bool
  enableOutlines : Bool
  enableShadows : Bool
  highContrast : Bool
  colorBlindMode : Bool
  reduceMotion : Bool
  showSubtitles : Bool
  keyBindings : List (String × String)
  mouseSensitivity : Rat
  joystickDeadzone : Rat
  autoAim : Bool
deriving DecidableEq, Repr

/-- The fields a stored settings blob provides: every field optional. -/
structure SettingsPatch where
  masterVolume : Option Rat := none
  sfxVolume : Option Rat := none
  musicVolume : Option Rat := none
  audioEnabled : Option Bool := none
  particleQuality : Option Quality := none
  graphicsQuality : Option Quality := none
  screenShake : Option Bool := none
  enableVignette : Option Bool := none
  enableAmbientFog : Option Bool := none
  enableBloom : Option Bool := none
  enableCRTOvrelay : Option Bool := none
  enableOutlines : Option Bool := none
  enableShadows : Option Bool := none
  highContrast : Option Bool := none
  colorBlindMode : Option Bool := none
  reduceMotion : Option Bool := none
  showSubtitles : Option Bool := none
  keyBindings : Option (List (String × String)) := none
  mouseSensitivity : Option Rat := none
  joystickDeadzone : Option Rat := none
  autoAim : Option Bool := none
deriving DecidableEq, Repr

/-- `Settings.getDefaultSettings()`. -/
def getDefaultSettings : GameSettings where
  masterVolume := 7 / 10
  sfxVolume := 4 / 5
  musicVolume := 3 / 5
  audioEnabled := true
  particleQuality := .high
  graphicsQuality := .high
  screenShake := true
  enableVignette := true
  enableAmbientFog := true
  enableBloom := true
  enableCRTOvrelay := false
  enableOutlines := true
  enableShadows := true
  highContrast := false
  colorBlindMode := false
  reduceMotion := false
  showSubtitles := true
  keyBindings :=
    [("moveUp", "W"), ("moveDown", "S"), ("moveLeft", "A"), ("moveRight", "D"),
     ("shoot", "MOUSE_LEFT"), ("altFire", "MOUSE_RIGHT"), ("dash", "SPACE"),
     ("reload", "R"), ("weaponPrev", "Q"), ("weaponNext", "E"), ("pause", "ESC")]
  mouseSensitivity := 1
  joystickDeadzone := 1 / 10
  autoAim := true

/-- `{ ...this.getDefaultSettings(), ...parsedSettings }`: every field the
blob provides wins, every missing field takes the base (default) value. -/
def mergeSettings (base : GameSettings) (p : SettingsPatch) : GameSettings where
  masterVolume := p.masterVolume.getD base.masterVolume
  sfxVolume := p.sfxVolume.getD base.sfxVolume
  musicVolume := p.musicVolume.getD base.musicVolume
  audioEnabled := p.audioEnabled.getD base.audioEnabled
  particleQuality := p.particleQuality.getD base.particleQuality
  graphicsQuality := p.graphicsQuality.getD base.graphicsQuality
  screenShake := p.screenShake.getD base.screenShake
  enableVignette := p.enableVignette.getD base.enableVignette
  enableAmbientFog := p.enableAmbientFog.getD base.enableAmbientFog
  enableBloom := p.enableBloom.getD base.enableBloom
  enableCRTOvrelay := p.enableCRTOvrelay.getD base.enableCRTOvrelay
  enableOutlines := p.enableOutlines.getD base.enableOutlines
  enableShadows := p.enableShadows.getD base.enableShadows
  highContrast := p.highContrast.getD base.highContrast
  colorBlindMode := p.colorBlindMode.getD base.colorBlindMode
  reduceMotion := p.reduceMotion.getD base.reduceMotion
  showSubtitles := p.showSubtitles.getD base.showSubtitles
  keyBindings := p.keyBindings.getD base.keyBindings
  mouseSensitivity := p.mouseSensitivity.getD base.mouseSensitivity
  joystickDeadzone := p.joystickDeadzone.getD base.joystickDeadzone
  autoAim := p.autoAim.getD base.autoAim

/-- What `localStorage` holds under `'veggie-clash-settings'` as seen by
`loadSettings`: no item (the `if (saved)` truthiness test also sends an
empty stored string here), an item `JSON.parse` rejects, or a parsed
item. -/
inductive SettingsBlob : Type where
  | absent : SettingsBlob
  | unparsable : SettingsBlob
  | parsed (p : SettingsPatch) : SettingsBlob

/-- `Settings.loadSettings()`: with no stored item the current settings
stay; a stored item that parses is merged over fresh defaults; a failing
parse falls back to the defaults.  `prior` is the value of `this.settings`
at the call (the only call site, the `Settings` constructor, calls it right
after `this.settings = this.getDefaultSettings()`). -/
def loadSettings (prior : GameSettings) : SettingsBlob → GameSettings
  | .absent => prior
  | .unparsable => getDefaultSettings
  | .parsed p => mergeSettings getDefaultSettings p

/-- `Settings.rebindKey(action, newKey)` acting on the `keyBindings` map:
`Object.keys(..).find(act => keyBindings[act] === newKey)` is the first
entry whose value is `newKey`; when it exists and is a different action the
call returns `false` and changes nothing, otherwise the binding is written
and the call returns `true`. -/
def rebindKey (bindings : List (String × String)) (action newKey : String) :
    Bool × List (String × String) :=
  match bindings.find? (fun kv => kv.2 = newKey) with
  | some kv =>
    if kv.1 ≠ action then (false, bindings)
    else (true, aset bindings action newKey)
  | none => (true, aset bindings action newKey)

/-- The settings-level state: the in-memory record plus the blob saved under
`'veggie-clash-settings'` (`saveSettings` serializes the whole record, so
the stored blob is modelled as the record itself). -/
structure SettingsStore where
  settings : GameSettings
  stored : Option GameSettings
deriving DecidableEq, Repr

/-- `rebindKey` at the `Settings` level: on success the new settings are
also written to storage by `this.saveSettings()`. -/
def rebindKeyS (s : SettingsStore) (action newKey : String) : Bool × SettingsStore :=
  match rebindKey s.settings.keyBindings action newKey with
  | (false, _) => (false, s)
  | (true, b) =>
    let updated := { s.settings with keyBindings := b }
    (true, { settings := updated, stored := some updated })

/-! ### MissionManager (`src/game/systems/MissionManager.ts`) -/

inductive MissionType : Type where
  | daily : MissionType
  | weekly : MissionType
  | campaign : MissionType
deriving DecidableEq, Repr

inductive MissionCategory : Type where
  | gold : MissionCategory
  | distance : MissionCategory
  | enemies : MissionCategory
  | powerups : MissionCategory
  | collectibles : MissionCategory
  | survivalTimer : MissionCategory
  | elimination : MissionCategory
deriving DecidableEq, Repr

inductive RewardType : Type where
  | coins : RewardType
  | gems : RewardType
  | skin : RewardType
  | weapon : RewardType
deriving DecidableEq, Repr

/-- The `Mission` interface (the campaign-only optional sub-objects
`waves`/`objectives`/`boss`/`rewards` carry no logic that the modelled
operations read and are left out). -/
structure Mission where
  id : String
  title : String
  description : String
  type : MissionType
  category : MissionCategory
  target : Int
  current : Int
  rewardType : RewardType
  rewardAmount : Int
  isCompleted : Bool
  isClaimed : Bool
deriving DecidableEq, Repr

/-- The campaign sub-record of the `MissionProgress` interface. -/
structure CampaignProgress where
  unlockedMissions : List String
  currentMission : Option String
  completedMissions : List String
deriving DecidableEq, Repr

/-- The `MissionProgress` interface: what is serialized under
`'veggieClash_missions'`. -/
structure MissionProgress where
  lastReset : Int
  missions : List Mission
  campaign : CampaignProgress
deriving DecidableEq, Repr

/-- The `MissionManager` fields `loadProgress` touches. -/
structure MMState where
  missions : List Mission
  lastReset : Int
deriving DecidableEq, Repr

/-- What `localStorage` holds under `'veggieClash_missions'` as seen by
`loadProgress` (the `if (saved)` truthiness test sends a missing or empty
item to `absent`). -/
inductive ProgressBlob : Type where
  | absent : ProgressBlob
  | unparsable : ProgressBlob
  | parsed (p : MissionProgress) : ProgressBlob

/-- `MissionManager.loadProgress()`: no stored item only zeroes `lastReset`;
an item that fails `JSON.parse` falls back to the empty state (`missions`
cleared, `lastReset` zero); a parsed item is taken over, with claimed
missions dropped once the stored `lastReset` is at least a week old
(`now` is `Date.now()`). -/
def loadProgress (st : MMState) (blob : ProgressBlob) (now : Int) : MMState :=
  match blob with
  | .absent => { st with lastReset := 0 }
  | .unparsable => { missions := [], lastReset := 0 }
  | .parsed p =>
    { missions := p.missions.filter
        (fun m => !m.isClaimed || (now - p.lastReset < 7 * 24 * 60 * 60 * 1000 : Bool)),
      lastReset := p.lastReset }

/-! ### High scores (`src/game/scenes/GameOverScene.ts`)

`saveHighScore` reads the raw string stored under `highScore_<mode>`, runs
JavaScript `parseInt` on it (treating a missing item as the string `"0"`),
and overwrites both the high score and a stats blob when the run's score
exceeds the parsed value.  `parseInt` is modelled on characters: skip
leading whitespace, take one optional sign, then (with an optional `0x`
prefix for hexadecimal) the longest digit run; no digits means `NaN`,
embedded as `none`.  A `NaN` makes the `>` comparison false. -/

def isJsSpace (c : Char) : Bool :=
  c = ' ' || c = '\t' || c = '\n' || c = '\r'

def isDecDigit (c : Char) : Bool :=
  '0' ≤ c && c ≤ '9'

def isHexDigit (c : Char) : Bool :=
  isDecDigit c || ('a' ≤ c && c ≤ 'f') || ('A' ≤ c && c ≤ 'F')

def decDigitVal (c : Char) : Nat := c.toNat - 48

def hexDigitVal (c : Char) : Nat :=
  if isDecDigit c then c.toNat - 48
  else if 'a' ≤ c && c ≤ 'f' then c.toNat - 87
  else c.toNat - 55

def decValue (cs : List Char) : Nat :=
  cs.foldl (fun acc c => acc * 10 + decDigitVal c) 0

def hexValue (cs : List Char) : Nat :=
  cs.foldl (fun acc c => acc * 16 + hexDigitVal c) 0

/-- Whether the character list opens with the `0x`/`0X` marker that makes
`parseInt` (with no radix argument) read hexadecimal. -/
def hasHexMark : List Char → Bool
  | c1 :: c2 :: _ => c1 = '0' && (c2 = 'x' || c2 = 'X')
  | _ => false

/-- The unsigned part of `parseInt`: a `0x`/`0X` prefix selects base 16,
otherwise the longest decimal digit run counts; an empty digit run is
`NaN`. -/
def parseUnsigned (cs : List Char) : Option Nat :=
  if hasHexMark cs then
    let ds := (cs.drop 2).takeWhile isHexDigit
    if ds.isEmpty then none else some (hexValue ds)
  else
    let ds := cs.takeWhile isDecDigit
    if ds.isEmpty then none else some (decValue ds)

/-- JavaScript `parseInt(s)` with no radix argument; `none` is `NaN`. -/
def jsParseInt (s : String) : Option Int :=
  match s.data.dropWhile isJsSpace with
  | [] => none
  | c :: rest =>
    if c = '-' then (parseUnsigned rest).map (fun n => -(n : Int))
    else if c = '+' then (parseUnsigned rest).map (fun n => (n : Int))
    else (parseUnsigned (c :: rest)).map (fun n => (n : Int))

/-- Decimal digits of `n`, most significant first. -/
def natToChars (n : Nat) : List Char :=
  if h : n < 10 then [Char.ofNat (48 + n)]
  else natToChars (n / 10) ++ [Char.ofNat (48 + n % 10)]
decreasing_by exact Nat.div_lt_self (by omega) (by omega)

/-- JavaScript `Number.prototype.toString()` on an integral value. -/
def intToString (n : Int) : String :=
  if n < 0 then ⟨'-' :: natToChars n.natAbs⟩ else ⟨natToChars n.natAbs⟩

/-- The raw string view of `localStorage` used by the high-score logic. -/
abbrev SStorage : Type := List (String × String)

/-- The `GameOverData` interface. -/
structure GameOverData where
  score : Int
  wave : Int
  enemiesKilled : Int
  mode : String
  victory : Option Bool
deriving DecidableEq, Repr

/-- The stats blob written next to a new high score (`date` is
`new Date().toISOString()`, passed in as `nowISO`). -/
def statsJson (data : GameOverData) (nowISO : String) : String :=
  "\x7b\"score\":" ++ intToString data.score ++
  ",\"wave\":" ++ intToString data.wave ++
  ",\"enemiesKilled\":" ++ intToString data.enemiesKilled ++
  ",\"date\":\"" ++ nowISO ++ "\"\x7d"

/-- `localStorage.getItem(key) || '0'`: a missing item — and, `||` being a
truthiness test, an empty stored string — reads as `"0"`. -/
def getItemOr0 (st : SStorage) (key : String) : String :=
  match alookup st key with
  | none => "0"
  | some s => if s = "" then "0" else s

/-- `GameOverScene.saveHighScore()`: parse the stored value under
`highScore_<mode>` (missing or empty item read as `"0"`); only when
`this.gameData.score > currentHighScore` — false whenever the parse is
`NaN` — are the high score and the stats blob written. -/
def saveHighScore (st : SStorage) (data : GameOverData) (nowISO : String) : SStorage :=
  let highScoreKey := "highScore_" ++ data.mode
  let stored := getItemOr0 st highScoreKey
  let overwrite : Bool := match jsParseInt stored with
    | some n => n < data.score
    | none => false
  if overwrite then
    aset (aset st highScoreKey (intToString data.score))
      ("stats_" ++ data.mode) (statsJson data nowISO)
  else st

/-- The numeric high score a later `saveHighScore` would compare against:
the parse of the stored string, a missing or empty item reading as `"0"`. -/
def storedHighScore (st : SStorage) (mode : String) : Option Int :=
  jsParseInt (getItemOr0 st ("highScore_" ++ mode))

/-!
## Theorems

General lemmas about the association-map helpers and the character-level
codecs come first; the named claim theorems follow.
-/

section MapLemmas

variable {κ α : Type} [DecidableEq κ]

theorem alookup_aset_self (l : List (κ × α)) (k : κ) (v : α) :
    alookup (aset l k v) k = some v := by
  induction l with
  | nil => simp [aset, alookup]
  | cons kv rest ih =>
    cases kv with | mk ka va =>
    by_cases h : ka = k
    · simp [aset, h, alookup]
    · simp [aset, h, alookup, ih]

theorem alookup_aset_ne (l : List (κ × α)) (k k1 : κ) (v : α) (h : k1 ≠ k) :
    alookup (aset l k v) k1 = alookup l k1 := by
  have hsym : k ≠ k1 := Ne.symm h
  induction l with
  | nil => simp [aset, alookup, hsym]
  | cons kv rest ih =>
    cases kv with | mk ka va =>
    by_cases hk : ka = k
    · subst hk
      simp [aset, alookup, hsym]
    · simp only [aset, alookup, hk, if_false]
      by_cases hk1 : ka = k1 <;> simp [hk1, ih]

theorem length_aset_of_lookup (l : List (κ × α)) (k : κ) (v w : α)
    (h : alookup l k = some w) : (aset l k v).length = l.length := by
  induction l with
  | nil => simp [alookup] at h
  | cons kv rest ih =>
    cases kv with | mk ka va =>
    by_cases hk : ka = k
    · simp [aset, hk]
    · simp only [alookup, hk, if_false] at h
      simp [aset, hk, ih h]

theorem alookup_eq_none_of_not_mem_keys (l : List (κ × α)) (k : κ)
    (h : ∀ v, (k, v) ∉ l) : alookup l k = none := by
  induction l with
  | nil => simp [alookup]
  | cons kv rest ih =>
    cases kv with | mk ka va =>
    by_cases hk : ka = k
    · subst hk
      exact absurd (List.mem_cons_self _ _) (h va)
    · simp only [alookup, hk, if_false]
      exact ih fun v hv => h v (List.mem_cons_of_mem _ hv)

end MapLemmas

/-! ### Claim C1: the clamp invariant of the shared state -/

theorem hpInvariant_apply (d : GameStateData) (op : GSOp)
    (hinv : hpInvariant d) (hop : op.preservesClamp) : hpInvariant (GSOp.apply d op) := by
  obtain ⟨h0, h1⟩ := hinv
  cases op <;>
    simp_all [GSOp.apply, GSOp.preservesClamp, hpInvariant, GameState.reset,
      GameState.setPlayerHP, GameState.setPlayerMaxHP, GameState.updateScore,
      GameState.setScore, GameState.setLevel, GameState.setPlayerPosition,
      GameState.setEnemies, GameState.setCurrentWeapon, GameState.addItem,
      GameState.removeItem, GameState.setFlag, GameState.setLastMode]
  all_goals omega

/-- Claim C1, counterexample: the claim quantifies over all the `GameState`
operations, but `setData` copies the patch fields verbatim, so a patch with
`playerHP: 150` pushes `playerHP` above `playerMaxHP = 100` on a fresh
state; likewise `setPlayerMaxHP(-5)` pulls `playerHP` below `0`. -/
theorem C1_clamp_counterexample :
    ¬ hpInvariant (runGSOps [GSOp.reset, GSOp.setData { playerHP := some 150 }] GameState.reset)
    ∧ (runGSOps [GSOp.reset, GSOp.setPlayerMaxHP (-5)] GameState.reset).playerHP < 0 := by
  constructor <;> decide

/-- Claim C1, amended: every sequence of `GameState` operations drawn from
`reset`, `setPlayerHP`, `updateScore`, `setScore`, `setLevel`,
`setPlayerPosition`, `setEnemies`, `setCurrentWeapon`, `addItem`,
`removeItem`, `setFlag`, the `lastMode` setter, and `setPlayerMaxHP` with a
nonnegative argument preserves `0 ≤ playerHP ≤ playerMaxHP`; `setData` does
not clamp and can break the invariant, as can `setPlayerMaxHP` with a
negative argument. -/
theorem C1_clamp_invariant_amended (ops : List GSOp) (d : GameStateData)
    (hinv : hpInvariant d) (hops : ∀ op ∈ ops, op.preservesClamp) :
    hpInvariant (runGSOps ops d) := by
  induction ops generalizing d with
  | nil => exact hinv
  | cons op rest ih =>
    simp only [runGSOps, List.foldl_cons] at *
    exact ih (GSOp.apply d op)
      (hpInvariant_apply d op hinv (hops op (List.mem_cons_self _ _)))
      (fun o ho => hops o (List.mem_cons_of_mem _ ho))

/-- Claim C1, witness: the amended theorem applied to a concrete operation
sequence on a fresh state. -/
theorem C1_clamp_invariant_witness :
    hpInvariant (runGSOps
      [GSOp.reset, GSOp.setPlayerHP 150, GSOp.setPlayerMaxHP 50,
       GSOp.updateScore 10, GSOp.setLevel 2] GameState.reset) :=
  C1_clamp_invariant_amended _ _ (by decide) (by decide)

/-! ### Claim C5: save/load round trip of the shared state -/

theorem decodeEnemyPos_encode (e : EnemyPosition) :
    decodeEnemyPos (encodeEnemyPos e) = some e := rfl

theorem decodeEnemyList_encode (es : List EnemyPosition) :
    decodeEnemyList (es.map encodeEnemyPos) = some es := by
  induction es with
  | nil => rfl
  | cons e rest ih => simp [decodeEnemyList, decodeEnemyPos_encode, ih]

theorem decodeWeaponData_encode (w : Option WeaponData) :
    decodeWeaponData (encodeWeaponData w) = some w := by
  cases w <;> rfl

theorem mergeGameState_encode (dcur d : GameStateData) :
    mergeGameState dcur (encodeGameState d) = d := by
  cases d with
  | mk s l hp mhp inv fl lm px py es cw =>
    simp [mergeGameState, encodeGameState, JValue.get, alookup,
      JValue.asNum, JValue.asObj, JValue.asStr,
      decodeEnemyList_encode, decodeWeaponData_encode]

/-- Claim C5: saving writes the JSON blob of the current record under
`'vc_game_state_v1'`, and a subsequent load finds it, returns `true`, and
(because the blob carries every field) the merge over any current data
restores exactly the saved record. -/
theorem C5_save_load_roundtrip (d dcur : GameStateData) (st : JStorage) :
    loadFromStorage dcur (saveToStorage d st) = (true, d) := by
  simp [loadFromStorage, saveToStorage, alookup_aset_self, mergeGameState_encode]

/-! ### Claim C2: the clamped power-up multipliers and the combat stats

`recalculateStats` computes and clamps the three multipliers but stores
only the speed result (into `moveSpeed`); the damage and fire-rate results
go solely into the emitted HUD event.  `shoot()` multiplies by
`baseDamageMultiplier` and divides by `baseFireRateMultiplier`, two fields
no code path ever updates — despite the "Apply boost" comments at those
lines — so the clamped damage and fire-rate multipliers never reach the
projectile damage or the shot cooldown. -/

theorem C2_combat_stats_ignore_boosts :
    (applyPowerUp initialPlayer .damageBoost (3 / 2) 10000).2.damageMultiplier = 3 / 2
    ∧ shootDamage (applyPowerUp initialPlayer .damageBoost (3 / 2) 10000).1 = 10
    ∧ (applyPowerUp initialPlayer .damageBoost (3 / 2) 10000).1.baseDamageMultiplier = 1
    ∧ (applyPowerUp (applyPowerUp initialPlayer .damageBoost (3 / 2) 10000).1
        .fireRateBoost 2 8000).2.fireRateMultiplier = 2
    ∧ shootFireRate (applyPowerUp (applyPowerUp initialPlayer .damageBoost (3 / 2) 10000).1
        .fireRateBoost 2 8000).1 = 150
    ∧ (applyPowerUp (applyPowerUp initialPlayer .damageBoost (3 / 2) 10000).1
        .fireRateBoost 2 8000).1.baseFireRateMultiplier = 1
    ∧ (applyPowerUp initialPlayer .speedBoost 2 12000).2.speedMultiplierDelta = 1 / 2
    ∧ (applyPowerUp initialPlayer .speedBoost 2 12000).1.moveSpeed = 300 := by
  have hds : PowerUpType.damageBoost ≠ PowerUpType.speedBoost := by decide
  have hdf : PowerUpType.damageBoost ≠ PowerUpType.fireRateBoost := by decide
  have hfd : PowerUpType.fireRateBoost ≠ PowerUpType.damageBoost := by decide
  have hfs : PowerUpType.fireRateBoost ≠ PowerUpType.speedBoost := by decide
  have hsd : PowerUpType.speedBoost ≠ PowerUpType.damageBoost := by decide
  have hsf : PowerUpType.speedBoost ≠ PowerUpType.fireRateBoost := by decide
  have h1 : (applyPowerUp initialPlayer .damageBoost (3 / 2) 10000).1 =
      { health := 100, maxHealth := 100, currentWeapon := 0, currentAmmo := -1,
        maxAmmo := -1, moveSpeed := 200, baseMoveSpeed := 200,
        baseDamageMultiplier := 1, baseFireRateMultiplier := 1,
        activePowerUps := [(.damageBoost,
          { multiplier := 3 / 2, duration := 10000, remainingTime := 10000 })] } := by
    norm_num [applyPowerUp, recalculateStats, initialPlayer, updateWeaponStats,
      weaponAt, weapons, alookup, aset, min_def, hds, hdf]
  refine ⟨?_, ?_, ?_, ?_, ?_, ?_, ?_, ?_⟩
  · norm_num [applyPowerUp, recalculateStats, initialPlayer, updateWeaponStats,
      weaponAt, weapons, alookup, aset, min_def, hds, hdf]
  · rw [h1]
    norm_num [shootDamage, weaponAt, weapons]
  · rw [h1]
  · rw [h1]
    norm_num [applyPowerUp, recalculateStats, alookup, aset, min_def,
      hds, hdf, hfd, hfs]
  · rw [h1]
    norm_num [applyPowerUp, recalculateStats, alookup, aset, min_def,
      shootFireRate, weaponAt, weapons, hds, hdf, hfd, hfs]
  · rw [h1]
    norm_num [applyPowerUp, recalculateStats, alookup, aset, min_def,
      hds, hdf, hfd, hfs]
  · norm_num [applyPowerUp, recalculateStats, initialPlayer, updateWeaponStats,
      weaponAt, weapons, alookup, aset, min_def, hsd, hsf]
  · norm_num [applyPowerUp, recalculateStats, initialPlayer, updateWeaponStats,
      weaponAt, weapons, alookup, aset, min_def, hsd, hsf]

/-! ### Claim C4: power-up stacking keeps one effect per type -/

theorem countType_cons (kv : PowerUpType × PowerUpEffect)
    (rest : List (PowerUpType × PowerUpEffect)) (u : PowerUpType) :
    countType (kv :: rest) u = (if kv.1 = u then 1 else 0) + countType rest u := by
  by_cases h : kv.1 = u
  · simp [countType, List.filter_cons, h, Nat.add_comm]
  · simp [countType, List.filter_cons, h]

theorem countType_aset_of_lookup (l : List (PowerUpType × PowerUpEffect))
    (t : PowerUpType) (v w : PowerUpEffect) (h : alookup l t = some w) (u : PowerUpType) :
    countType (aset l t v) u = countType l u := by
  induction l with
  | nil => simp [alookup] at h
  | cons kv rest ih =>
    cases kv with | mk ka va =>
    by_cases hk : ka = t
    · subst hk
      simp [aset, countType_cons]
    · simp only [alookup, hk, if_false] at h
      simp [aset, hk, countType_cons, ih h]

theorem countType_eq_zero_of_lookup_none (l : List (PowerUpType × PowerUpEffect))
    (t : PowerUpType) (h : alookup l t = none) : countType l t = 0 := by
  induction l with
  | nil => simp [countType]
  | cons kv rest ih =>
    cases kv with | mk ka va =>
    by_cases hk : ka = t
    · simp [alookup, hk] at h
    · simp only [alookup, hk, if_false] at h
      simp [countType_cons, hk, ih h]

theorem countType_append_single (l : List (PowerUpType × PowerUpEffect))
    (t : PowerUpType) (v : PowerUpEffect) (u : PowerUpType) :
    countType (l ++ [(t, v)]) u = countType l u + (if t = u then 1 else 0) := by
  by_cases h : t = u <;> simp [countType, List.filter_append, List.filter_cons, h]

theorem countType_applyPowerUp_le_one (r : Player) (t0 : PowerUpType) (m0 d0 : Rat)
    (u : PowerUpType) (h : countType r.activePowerUps u ≤ 1) :
    countType ((applyPowerUp r t0 m0 d0).1).activePowerUps u ≤ 1 := by
  unfold applyPowerUp
  cases hl : alookup r.activePowerUps t0 with
  | some e =>
    simpa [recalculateStats, countType_aset_of_lookup _ _ _ _ hl] using h
  | none =>
    simp only [recalculateStats, countType_append_single]
    by_cases hu : t0 = u
    · subst hu
      simp [countType_eq_zero_of_lookup_none _ _ hl]
    · simpa [hu] using h

/-- Claim C4: applying a power-up whose type is already active replaces that
type's single map entry in place — the stored multiplier becomes the
maximum of the old and the new one, the duration and remaining time are
reset to the new duration, the number of entries is unchanged, and the
per-type effect counts are untouched.  Moreover `applyPowerUp` keeps every
per-type count at most one. -/
theorem C4_powerup_refresh (p : Player) (t : PowerUpType) (m dur : Rat)
    (e : PowerUpEffect) (h : alookup p.activePowerUps t = some e) :
    alookup ((applyPowerUp p t m dur).1).activePowerUps t =
      some { multiplier := max e.multiplier m, duration := dur, remainingTime := dur }
    ∧ ((applyPowerUp p t m dur).1).activePowerUps.length = p.activePowerUps.length
    ∧ (∀ u, countType ((applyPowerUp p t m dur).1).activePowerUps u
        = countType p.activePowerUps u)
    ∧ (∀ (r : Player) (t0 : PowerUpType) (m0 d0 : Rat) (u : PowerUpType),
        countType r.activePowerUps u ≤ 1 →
        countType ((applyPowerUp r t0 m0 d0).1).activePowerUps u ≤ 1) := by
  refine ⟨?_, ?_, ?_, countType_applyPowerUp_le_one⟩ <;>
    simp [applyPowerUp, h, recalculateStats, alookup_aset_self,
      length_aset_of_lookup _ _ _ _ h, countType_aset_of_lookup _ _ _ _ h]

/-- Claim C4, witness: refreshing the damage boost already active on a
player. -/
theorem C4_powerup_refresh_witness :
    alookup ((applyPowerUp (applyPowerUp initialPlayer .damageBoost (3 / 2) 1000).1
      .damageBoost (6 / 5) 2500).1).activePowerUps .damageBoost =
      some { multiplier := 3 / 2, duration := 2500, remainingTime := 2500 }
    ∧ ((applyPowerUp (applyPowerUp initialPlayer .damageBoost (3 / 2) 1000).1
        .damageBoost (6 / 5) 2500).1).activePowerUps.length = 1 := by
  have h := C4_powerup_refresh (applyPowerUp initialPlayer .damageBoost (3 / 2) 1000).1
    .damageBoost (6 / 5) 2500
    { multiplier := 3 / 2, duration := 1000, remainingTime := 1000 }
    (by norm_num [applyPowerUp, recalculateStats, initialPlayer, updateWeaponStats,
      weaponAt, weapons, alookup, aset])
  constructor
  · rw [h.1]
    norm_num [max_def]
  · rw [h.2.1]
    norm_num [applyPowerUp, recalculateStats, initialPlayer, updateWeaponStats,
      weaponAt, weapons, alookup, aset]

/-! ### Claim C9: weapon switching -/

/-- Claim C9: from any in-range weapon index and direction `±1`,
`switchWeapon` lands on `(old + direction) mod 3` — always a valid index
into the three-weapon table — and refills `currentAmmo` and `maxAmmo` to
the new weapon's full capacity; switching back restores the old index with
its full ammo. -/
theorem C9_switchWeapon (p : Player) (dir : Int)
    (h0 : 0 ≤ p.currentWeapon) (h3 : p.currentWeapon < 3)
    (hdir : dir = 1 ∨ dir = -1) :
    (switchWeapon p dir).currentWeapon = (p.currentWeapon + dir).emod 3
    ∧ 0 ≤ (switchWeapon p dir).currentWeapon
    ∧ (switchWeapon p dir).currentWeapon < 3
    ∧ (switchWeapon p dir).currentAmmo = (weaponAt ((p.currentWeapon + dir).emod 3)).ammo
    ∧ (switchWeapon p dir).maxAmmo = (weaponAt ((p.currentWeapon + dir).emod 3)).ammo
    ∧ (switchWeapon (switchWeapon p dir) (-dir)).currentWeapon = p.currentWeapon
    ∧ (switchWeapon (switchWeapon p dir) (-dir)).currentAmmo
        = (weaponAt p.currentWeapon).ammo := by
  cases p with
  | mk hea mhea cw ca ma ms bms bdm bfm apu =>
    simp only [Player.mk.injEq] at *
    rcases hdir with rfl | rfl <;> interval_cases cw <;>
      simp [switchWeapon, updateWeaponStats, weaponAt, weapons] <;> decide

/-- Claim C9, witness: switching forward then back from the pea shooter. -/
theorem C9_switchWeapon_witness :
    (switchWeapon initialPlayer 1).currentWeapon = (0 + 1 : Int).emod 3
    ∧ (switchWeapon initialPlayer 1).currentAmmo = 30
    ∧ (switchWeapon (switchWeapon initialPlayer 1) (-1)).currentWeapon = 0 := by
  have h := C9_switchWeapon initialPlayer 1 (by decide) (by decide) (Or.inl rfl)
  exact ⟨h.1, by rw [h.2.2.2.1]; decide, h.2.2.2.2.2.1⟩

/-! ### Claim C3: the enemy AI state machine -/

theorem findTarget_state (e : Enemy) (player : Option (Rat × Rat)) :
    (findTarget e player).state = e.state := by
  cases player <;> rfl

theorem enemyState_mem_aiStates (e : Enemy) (op : EnemyOp)
    (h : e.state ∈ aiStates) : (EnemyOp.apply e op).state ∈ aiStates := by
  cases op with
  | takeDamage amount => simp [EnemyOp.apply, enemyTakeDamage, aiStates]
  | update delta player =>
    simp only [aiStates, List.mem_cons, List.not_mem_nil, or_false] at h
    rcases h with h | h | h
    · show (updateState e delta player).state ∈ aiStates
      simp only [updateState, h]
      split <;> simp [findTarget_state, h, aiStates]
    · show (updateState e delta player).state ∈ aiStates
      simp only [updateState, h]
      split <;> simp [h, aiStates]
    · show (updateState e delta player).state ∈ aiStates
      simp only [updateState, h]
      split <;> simp [aiStates]

theorem runEnemyOps_state_mem (ops : List EnemyOp) (e : Enemy)
    (h : e.state ∈ aiStates) : (runEnemyOps ops e).state ∈ aiStates := by
  induction ops generalizing e with
  | nil => exact h
  | cons op rest ih =>
    simp only [runEnemyOps, List.foldl_cons] at *
    exact ih _ (enemyState_mem_aiStates e op h)

/-- Claim C3: a freshly constructed enemy starts in `seeking`; under every
sequence of frame updates and hits, its state stays within
`{seeking, attacking, stunned}`; `takeDamage` enters `stunned` with a 200 ms
timer; a stunned enemy returns to `seeking` exactly when the decremented
timer reaches (or passes) zero; a seeking enemy becomes `attacking` exactly
when a target is tracked and within the per-type attack range after this
frame's target acquisition; an attacking enemy returns to `seeking` exactly
when no target is in range. -/
theorem C3_enemy_state_machine :
    (∀ (t : EnemyType) (x y : Rat), (mkEnemy t x y).state = .seeking)
    ∧ (∀ (t : EnemyType) (x y : Rat) (ops : List EnemyOp),
        (runEnemyOps ops (mkEnemy t x y)).state ∈ aiStates)
    ∧ (∀ (e : Enemy) (amount : Int),
        (enemyTakeDamage e amount).state = .stunned
        ∧ (enemyTakeDamage e amount).stateTimer = 200)
    ∧ (∀ (e : Enemy) (delta : Rat) (player : Option (Rat × Rat)),
        e.state = .stunned →
        (updateState e delta player).stateTimer = e.stateTimer - delta
        ∧ (updateState e delta player).state =
            (if e.stateTimer - delta ≤ 0 then .seeking else .stunned))
    ∧ (∀ (e : Enemy) (delta : Rat) (player : Option (Rat × Rat)),
        e.state = .seeking →
        (updateState e delta player).state =
          (if (findTarget e player).target.isSome && isInRange (findTarget e player)
           then .attacking else .seeking))
    ∧ (∀ (e : Enemy) (delta : Rat) (player : Option (Rat × Rat)),
        e.state = .attacking →
        (updateState e delta player).state =
          (if e.target.isNone || !isInRange e then .seeking else .attacking)) := by
  refine ⟨fun t x y => rfl, ?_, fun e amount => ⟨rfl, rfl⟩, ?_, ?_, ?_⟩
  · intro t x y ops
    exact runEnemyOps_state_mem ops _ (by simp [mkEnemy, aiStates])
  · intro e delta player h
    constructor
    · simp only [updateState, h]
      split <;> rfl
    · simp only [updateState, h]
      split <;> simp_all
  · intro e delta player h
    simp only [updateState, h]
    split <;> simp_all [findTarget_state]
  · intro e delta player h
    simp only [updateState, h]
    split <;> simp_all

/-- Claim C3, witness: a fresh tomato starts seeking, a hit stuns it, and a
250 ms frame clears the 200 ms stun back to seeking. -/
theorem C3_enemy_state_machine_witness :
    (mkEnemy .tomato 0 0).state = .seeking
    ∧ (enemyTakeDamage (mkEnemy .tomato 0 0) 5).state = .stunned
    ∧ (updateState (enemyTakeDamage (mkEnemy .tomato 0 0) 5) 250 none).state = .seeking := by
  refine ⟨C3_enemy_state_machine.1 .tomato 0 0,
    (C3_enemy_state_machine.2.2.1 (mkEnemy .tomato 0 0) 5).1, ?_⟩
  have h := (C3_enemy_state_machine.2.2.2.1
    (enemyTakeDamage (mkEnemy .tomato 0 0) 5) 250 none rfl).2
  rw [h]
  norm_num [enemyTakeDamage, mkEnemy, setupStats]

/-! ### Claim C6: settings loading falls back to defaults -/

/-- Claim C6: at its call site (the `Settings` constructor, where
`this.settings` holds fresh defaults), `loadSettings` yields the defaults
when the stored blob is absent or fails to parse; a blob that parses yields
the defaults overlaid with the blob's fields, and each field the blob does
not provide keeps its default value. -/
theorem C6_loadSettings_defaults (prior : GameSettings)
    (h : prior = getDefaultSettings) :
    loadSettings prior .absent = getDefaultSettings
    ∧ loadSettings prior .unparsable = getDefaultSettings
    ∧ (∀ p, loadSettings prior (.parsed p) = mergeSettings getDefaultSettings p)
    ∧ loadSettings prior (.parsed {}) = getDefaultSettings
    ∧ (∀ p : SettingsPatch,
        (p.masterVolume = none →
          (loadSettings prior (.parsed p)).masterVolume = getDefaultSettings.masterVolume)
        ∧ (p.sfxVolume = none →
          (loadSettings prior (.parsed p)).sfxVolume = getDefaultSettings.sfxVolume)
        ∧ (p.musicVolume = none →
          (loadSettings prior (.parsed p)).musicVolume = getDefaultSettings.musicVolume)
        ∧ (p.audioEnabled = none →
          (loadSettings prior (.parsed p)).audioEnabled = getDefaultSettings.audioEnabled)
        ∧ (p.particleQuality = none →
          (loadSettings prior (.parsed p)).particleQuality = getDefaultSettings.particleQuality)
        ∧ (p.graphicsQuality = none →
          (loadSettings prior (.parsed p)).graphicsQuality = getDefaultSettings.graphicsQuality)
        ∧ (p.screenShake = none →
          (loadSettings prior (.parsed p)).screenShake = getDefaultSettings.screenShake)
        ∧ (p.enableVignette = none →
          (loadSettings prior (.parsed p)).enableVignette = getDefaultSettings.enableVignette)
        ∧ (p.enableAmbientFog = none →
          (loadSettings prior (.parsed p)).enableAmbientFog = getDefaultSettings.enableAmbientFog)
        ∧ (p.enableBloom = none →
          (loadSettings prior (.parsed p)).enableBloom = getDefaultSettings.enableBloom)
        ∧ (p.enableCRTOvrelay = none →
          (loadSettings prior (.parsed p)).enableCRTOvrelay = getDefaultSettings.enableCRTOvrelay)
        ∧ (p.enableOutlines = none →
          (loadSettings prior (.parsed p)).enableOutlines = getDefaultSettings.enableOutlines)
        ∧ (p.enableShadows = none →
          (loadSettings prior (.parsed p)).enableShadows = getDefaultSettings.enableShadows)
        ∧ (p.highContrast = none →
          (loadSettings prior (.parsed p)).highContrast = getDefaultSettings.highContrast)
        ∧ (p.colorBlindMode = none →
          (loadSettings prior (.parsed p)).colorBlindMode = getDefaultSettings.colorBlindMode)
        ∧ (p.reduceMotion = none →
          (loadSettings prior (.parsed p)).reduceMotion = getDefaultSettings.reduceMotion)
        ∧ (p.showSubtitles = none →
          (loadSettings prior (.parsed p)).showSubtitles = getDefaultSettings.showSubtitles)
        ∧ (p.keyBindings = none →
          (loadSettings prior (.parsed p)).keyBindings = getDefaultSettings.keyBindings)
        ∧ (p.mouseSensitivity = none →
          (loadSettings prior (.parsed p)).mouseSensitivity = getDefaultSettings.mouseSensitivity)
        ∧ (p.joystickDeadzone = none →
          (loadSettings prior (.parsed p)).joystickDeadzone = getDefaultSettings.joystickDeadzone)
        ∧ (p.autoAim = none →
          (loadSettings prior (.parsed p)).autoAim = getDefaultSettings.autoAim)) := by
  subst h
  refine ⟨rfl, rfl, fun p => rfl, rfl, fun p => ?_⟩
  refine ⟨?_, ?_, ?_, ?_, ?_, ?_, ?_, ?_, ?_, ?_, ?_, ?_, ?_, ?_, ?_, ?_, ?_, ?_, ?_, ?_, ?_⟩ <;>
    · intro hf
      simp [loadSettings, mergeSettings, hf]

/-- Claim C6, witness: the absent and unparsable branches at the
constructor's state. -/
theorem C6_loadSettings_defaults_witness :
    loadSettings getDefaultSettings .absent = getDefaultSettings
    ∧ loadSettings getDefaultSettings .unparsable = getDefaultSettings
    ∧ loadSettings getDefaultSettings (.parsed { masterVolume := some (1 / 2) })
        = mergeSettings getDefaultSettings { masterVolume := some (1 / 2) } := by
  have h := C6_loadSettings_defaults getDefaultSettings rfl
  exact ⟨h.1, h.2.1, h.2.2.1 _⟩

/-! ### Claim C7: mission-progress loading falls back -/

/-- Claim C7: a stored mission blob that fails to parse resets the manager
to the empty state (no missions, `lastReset = 0`); an absent blob zeroes
`lastReset` and leaves the mission list untouched. -/
theorem C7_loadProgress_fallback :
    (∀ (st : MMState) (now : Int),
      loadProgress st .unparsable now = { missions := [], lastReset := 0 })
    ∧ (∀ (st : MMState) (now : Int),
      (loadProgress st .absent now).missions = st.missions
      ∧ (loadProgress st .absent now).lastReset = 0) :=
  ⟨fun _ _ => rfl, fun _ _ => ⟨rfl, rfl⟩⟩

/-! ### Claim C10: key rebinding -/

/-- Claim C10: on a binding map in which no key is bound to two actions (the
defaults are such a map and `rebindKey` keeps it that way), `rebindKey`
returns `false` and changes nothing exactly when `newKey` is already bound
to a different action; otherwise it writes the binding, returns `true`, and
— at the `Settings` level — persists the updated settings. -/
theorem C10_rebindKey_spec (b : List (String × String)) (action newKey : String)
    (huniq : ∀ a1 a2, (a1, newKey) ∈ b → (a2, newKey) ∈ b → a1 = a2) :
    ((∃ act, (act, newKey) ∈ b ∧ act ≠ action) →
      rebindKey b action newKey = (false, b))
    ∧ ((∀ act, (act, newKey) ∈ b → act = action) →
      rebindKey b action newKey = (true, aset b action newKey)
      ∧ alookup (aset b action newKey) action = some newKey)
    ∧ (∀ s : SettingsStore, s.settings.keyBindings = b →
      (∃ act, (act, newKey) ∈ b ∧ act ≠ action) →
      rebindKeyS s action newKey = (false, s))
    ∧ (∀ s : SettingsStore, s.settings.keyBindings = b →
      (∀ act, (act, newKey) ∈ b → act = action) →
      (rebindKeyS s action newKey).1 = true
      ∧ (rebindKeyS s action newKey).2.settings.keyBindings = aset b action newKey
      ∧ (rebindKeyS s action newKey).2.stored
          = some (rebindKeyS s action newKey).2.settings) := by
  have hfalse : (∃ act, (act, newKey) ∈ b ∧ act ≠ action) →
      rebindKey b action newKey = (false, b) := by
    rintro ⟨act, hmem, hne⟩
    cases hf : b.find? (fun kv => kv.2 = newKey) with
    | none =>
      have hnone := List.find?_eq_none.mp hf (act, newKey) hmem
      simp at hnone
    | some kv =>
      obtain ⟨k1, v1⟩ := kv
      have hp : v1 = newKey := by
        have := List.find?_some hf
        simpa using this
      have hm : (k1, newKey) ∈ b := by
        have := List.mem_of_find?_eq_some hf
        rwa [hp] at this
      have hk1 : k1 ≠ action := by
        rw [huniq k1 act hm hmem]
        exact hne
      simp [rebindKey, hf, hk1]
  have htrue : (∀ act, (act, newKey) ∈ b → act = action) →
      rebindKey b action newKey = (true, aset b action newKey) := by
    intro hall
    cases hf : b.find? (fun kv => kv.2 = newKey) with
    | none => simp [rebindKey, hf]
    | some kv =>
      obtain ⟨k1, v1⟩ := kv
      have hp : v1 = newKey := by
        have := List.find?_some hf
        simpa using this
      have hm : (k1, newKey) ∈ b := by
        have := List.mem_of_find?_eq_some hf
        rwa [hp] at this
      simp [rebindKey, hf, hall k1 hm]
  refine ⟨hfalse, fun hall => ⟨htrue hall, alookup_aset_self b action newKey⟩, ?_, ?_⟩
  · intro s hs hex
    simp [rebindKeyS, hs, hfalse hex]
  · intro s hs hall
    simp [rebindKeyS, hs, htrue hall]

/-- Claim C10, witness: on the default bindings, rebinding dash to the free
key J succeeds, while rebinding dash to W (taken by moveUp) is refused. -/
theorem C10_rebindKey_spec_witness :
    rebindKey getDefaultSettings.keyBindings "dash" "J"
      = (true, aset getDefaultSettings.keyBindings "dash" "J")
    ∧ rebindKey getDefaultSettings.keyBindings "dash" "W"
      = (false, getDefaultSettings.keyBindings) := by
  have hJ := C10_rebindKey_spec getDefaultSettings.keyBindings "dash" "J"
    (fun a1 a2 h1 h2 => by simp [getDefaultSettings] at h1)
  have hW := C10_rebindKey_spec getDefaultSettings.keyBindings "dash" "W"
    (fun a1 a2 h1 h2 => by
      simp [getDefaultSettings] at h1 h2
      rw [h1, h2])
  refine ⟨(hJ.2.1 (fun act h => by simp [getDefaultSettings] at h)).1, ?_⟩
  exact hW.1 ⟨"moveUp", by simp [getDefaultSettings], by decide⟩

/-! ### Claim C8: high-score persistence

The round trip `jsParseInt (intToString n) = some n` underpins the
monotonicity of the stored high score. -/

theorem digit_char_props (d : Nat) (h : d < 10) :
    isDecDigit (Char.ofNat (48 + d)) = true
    ∧ decDigitVal (Char.ofNat (48 + d)) = d := by
  interval_cases d <;> exact ⟨rfl, rfl⟩

theorem digit_not_sign (c : Char) (h : isDecDigit c = true) :
    c ≠ '-' ∧ c ≠ '+' ∧ isJsSpace c = false := by
  refine ⟨fun hc => ?_, fun hc => ?_, ?_⟩
  · rw [hc] at h
    exact absurd h (by decide)
  · rw [hc] at h
    exact absurd h (by decide)
  · by_cases h1 : c = ' '
    · rw [h1] at h
      exact absurd h (by decide)
    · by_cases h2 : c = '\t'
      · rw [h2] at h
        exact absurd h (by decide)
      · by_cases h3 : c = '\n'
        · rw [h3] at h
          exact absurd h (by decide)
        · by_cases h4 : c = '\r'
          · rw [h4] at h
            exact absurd h (by decide)
          · simp [isJsSpace, h1, h2, h3, h4]

theorem digit_not_hexMark (c : Char) (h : isDecDigit c = true) :
    ((c = 'x') || (c = 'X') : Bool) = false := by
  by_cases hx : c = 'x'
  · rw [hx] at h
    exact absurd h (by decide)
  · by_cases hX : c = 'X'
    · rw [hX] at h
      exact absurd h (by decide)
    · simp [hx, hX]

theorem natToChars_digits (n : Nat) : ∀ c ∈ natToChars n, isDecDigit c = true := by
  induction n using Nat.strong_induction_on with
  | _ n ih =>
    rw [natToChars]
    split
    · intro c hc
      simp only [List.mem_singleton] at hc
      subst hc
      exact (digit_char_props n (by omega)).1
    · intro c hc
      rcases List.mem_append.mp hc with hml | hmr
      · exact ih (n / 10) (Nat.div_lt_self (by omega) (by omega)) c hml
      · simp only [List.mem_singleton] at hmr
        subst hmr
        exact (digit_char_props (n % 10) (Nat.mod_lt n (by omega))).1

theorem natToChars_ne_nil (n : Nat) : natToChars n ≠ [] := by
  rw [natToChars]
  split <;> simp

theorem intToString_ne_empty (k : Int) : intToString k ≠ "" := by
  intro h
  have h2 := congrArg String.data h
  have hnil : ("" : String).data = [] := rfl
  rw [hnil] at h2
  unfold intToString at h2
  split at h2
  · simp at h2
  · exact natToChars_ne_nil k.natAbs (by simpa using h2)

theorem takeWhile_eq_self_of_forall {p : Char → Bool} (l : List Char)
    (h : ∀ c ∈ l, p c = true) : l.takeWhile p = l := by
  induction l with
  | nil => rfl
  | cons c rest ih =>
    rw [List.takeWhile_cons, h c (List.mem_cons_self _ _)]
    simp [ih fun d hd => h d (List.mem_cons_of_mem _ hd)]

theorem decValue_natToChars (n : Nat) : decValue (natToChars n) = n := by
  induction n using Nat.strong_induction_on with
  | _ n ih =>
    rw [natToChars]
    split
    · simp [decValue, (digit_char_props n (by omega)).2]
    · have hrec := ih (n / 10) (Nat.div_lt_self (by omega) (by omega))
      simp only [decValue, List.foldl_append, List.foldl_cons, List.foldl_nil]
      simp only [decValue] at hrec
      rw [hrec, (digit_char_props (n % 10) (Nat.mod_lt n (by omega))).2]
      omega

theorem hasHexMark_of_digits (cs : List Char)
    (h : ∀ c ∈ cs, isDecDigit c = true) : hasHexMark cs = false := by
  cases cs with
  | nil => rfl
  | cons c1 tail =>
    cases tail with
    | nil => rfl
    | cons c2 rest =>
      show (decide (c1 = '0') && ((c2 = 'x') || (c2 = 'X')) : Bool) = false
      rw [digit_not_hexMark c2 (h c2 (List.mem_cons_of_mem _ (List.mem_cons_self _ _)))]
      simp

theorem parseUnsigned_natToChars (n : Nat) :
    parseUnsigned (natToChars n) = some n := by
  have hd := natToChars_digits n
  unfold parseUnsigned
  rw [hasHexMark_of_digits _ hd]
  simp only [Bool.false_eq_true, if_false]
  rw [takeWhile_eq_self_of_forall _ hd]
  have hne : (natToChars n).isEmpty = false := by
    cases hnl : natToChars n with
    | nil => exact absurd hnl (natToChars_ne_nil n)
    | cons c rest => rfl
  simp [hne, decValue_natToChars]

theorem jsParseInt_intToString (k : Int) : jsParseInt (intToString k) = some k := by
  by_cases hk : k < 0
  · have hdata : (intToString k).data = '-' :: natToChars k.natAbs := by
      simp [intToString, hk]
    have habs : ((k.natAbs : Nat) : Int) = -k := Int.ofNat_natAbs_of_nonpos (le_of_lt hk)
    unfold jsParseInt
    rw [hdata, List.dropWhile_cons]
    simp [isJsSpace, parseUnsigned_natToChars, habs]
  · obtain ⟨c, cs, hce⟩ : ∃ c cs, natToChars k.natAbs = c :: cs := by
      cases hnl : natToChars k.natAbs with
      | nil => exact absurd hnl (natToChars_ne_nil _)
      | cons c rest => exact ⟨c, rest, rfl⟩
    have hcd : isDecDigit c = true :=
      natToChars_digits _ c (hce ▸ List.mem_cons_self c cs)
    obtain ⟨hminus, hplus, hspace⟩ := digit_not_sign c hcd
    have hdata : (intToString k).data = c :: cs := by
      simp [intToString, hk, hce]
    unfold jsParseInt
    rw [hdata, List.dropWhile_cons, hspace]
    simp only [Bool.false_eq_true, if_false]
    have hparse : parseUnsigned (c :: cs) = some k.natAbs := hce ▸ parseUnsigned_natToChars _
    simp [hminus, hplus, hparse, Int.natAbs_of_nonneg (not_lt.mp hk)]

theorem highScore_key_ne_stats_key (m : String) :
    ("highScore_" ++ m) ≠ ("stats_" ++ m) := by
  intro he
  have h2 := congrArg String.data he
  rw [String.data_append, String.data_append] at h2
  have e1 : "highScore_".data = ['h', 'i', 'g', 'h', 'S', 'c', 'o', 'r', 'e', '_'] := rfl
  have e2 : "stats_".data = ['s', 't', 'a', 't', 's', '_'] := rfl
  rw [e1, e2] at h2
  have h3 := congrArg List.head? h2
  simp at h3

/-- Claim C8, counterexample: with the unparsable string `"abc"` stored
under the high-score key, a run scoring 100 leaves local storage unchanged,
although the claim (reading the unparsable value as 0, and 100 > 0) demands
an overwrite: `parseInt` yields `NaN` and the `>` comparison with `NaN` is
false. -/
theorem C8_highscore_counterexample :
    saveHighScore [("highScore_survival", "abc")]
      { score := 100, wave := 3, enemiesKilled := 7, mode := "survival", victory := none }
      "2026-10-12T00:00:00.000Z" = [("highScore_survival", "abc")]
    ∧ jsParseInt "abc" = none ∧ (100 : Int) > 0 := by
  refine ⟨?_, rfl, by decide⟩
  decide

/-- Claim C8, amended: `saveHighScore` overwrites the stored high score
exactly when the run's score strictly exceeds the `parseInt` of the stored
value, a missing value reading as `"0"` (hence 0); a stored value that
fails to parse is never overwritten (the comparison with `NaN` is false)
rather than being treated as 0; on parsable stored values the persisted
high score never decreases. -/
theorem C8_highscore_monotone_amended (st : SStorage) (data : GameOverData)
    (nowISO : String) :
    (storedHighScore st data.mode = none → saveHighScore st data nowISO = st)
    ∧ (∀ n, storedHighScore st data.mode = some n → ¬ n < data.score →
        saveHighScore st data nowISO = st)
    ∧ (∀ n, storedHighScore st data.mode = some n → n < data.score →
        storedHighScore (saveHighScore st data nowISO) data.mode = some data.score)
    ∧ (∀ n m, storedHighScore st data.mode = some n →
        storedHighScore (saveHighScore st data nowISO) data.mode = some m → n ≤ m)
    ∧ (alookup st ("highScore_" ++ data.mode) = none →
        storedHighScore st data.mode = some 0) := by
  have hwrite : ∀ n, storedHighScore st data.mode = some n → n < data.score →
      storedHighScore (saveHighScore st data nowISO) data.mode = some data.score := by
    intro n hn hlt
    unfold storedHighScore at hn
    unfold saveHighScore storedHighScore
    simp only [hn, hlt, decide_eq_true_eq, if_pos]
    simp [getItemOr0, alookup_aset_ne _ _ _ _ (highScore_key_ne_stats_key data.mode),
      alookup_aset_self, intToString_ne_empty, jsParseInt_intToString]
  refine ⟨?_, ?_, hwrite, ?_, ?_⟩
  · intro h
    unfold storedHighScore at h
    unfold saveHighScore
    simp [h]
  · intro n hn hge
    unfold storedHighScore at hn
    unfold saveHighScore
    simp [hn, hge]
  · intro n m hn hm
    by_cases hlt : n < data.score
    · have := hwrite n hn hlt
      rw [this] at hm
      have hm2 : m = data.score := by
        injection hm with h
        exact h.symm
      omega
    · have hst : saveHighScore st data nowISO = st := by
        unfold storedHighScore at hn
        unfold saveHighScore
        simp [hn, hlt]
      rw [hst] at hm
      rw [hn] at hm
      injection hm with h
      omega
  · intro h
    simp only [storedHighScore, getItemOr0, h]
    decide

/-- Claim C8, witness: the amended theorem applied to a stored score of 50
beaten by a run scoring 100. -/
theorem C8_highscore_monotone_witness :
    storedHighScore
      (saveHighScore [("highScore_survival", "50")]
        { score := 100, wave := 3, enemiesKilled := 7, mode := "survival", victory := none }
        "2026-10-12T00:00:00.000Z") "survival" = some 100 :=
  (C8_highscore_monotone_amended [("highScore_survival", "50")]
    { score := 100, wave := 3, enemiesKilled := 7, mode := "survival", victory := none }
    "2026-10-12T00:00:00.000Z").2.2.1 50 (by decide) (by decide)

end VeggieClash
